import Mathlib

/-!
Shallow embedding of the qrcode detection server core (src/main.rs):
geometry extraction (QRCodeDetector::detect_qr_codes), the detector object
pool (get_pool_config, the object_pool pull/attach operations as used by the
handlers), the four detection pipelines (detect_from_file, detect_from_base64,
detect_qr_from_base64, detect_qr_from_binary) and the WebSocket session loop
(handle_websocket, handle_websocket_request, handle_websocket_binary_request).

Conventions: f32 values are modelled by exact rationals; f32::round (round
half away from zero) is modelled by f32round below.  External collaborators
(the image codec, the base64 codec, the WeChat detector model) are black
boxes in the source and enter the model as explicit outcome parameters.
-/

/-- Model of Rust `f32::round`: round half away from zero, to an integer. -/
def f32round (x : ℚ) : ℤ :=
  if 0 ≤ x then Int.floor (x + 1/2) else Int.ceil (x - 1/2)

/-- Model of the source's one-decimal rounding `(v * 10.0).round() / 10.0`. -/
def round1 (x : ℚ) : ℚ := (f32round (x * 10) : ℚ) / 10

/-- An OpenCV `Mat` of f32 scalars as attached to one detected code:
row and column counts plus the scalar buffer in row-major order. -/
structure PointMat where
  rows : ℕ
  cols : ℕ
  data : List ℚ
  deriving DecidableEq, Repr

/-- Source `point_mat.at_2d::<f32>(j, k)`: row-major 2-D access. -/
def PointMat.at2d (m : PointMat) (j k : ℕ) : ℚ := m.data.getD (j * m.cols + k) 0

/-- Source `point_mat.at::<f32>(n)`: flat access into the scalar buffer. -/
def PointMat.atFlat (m : PointMat) (n : ℕ) : ℚ := m.data.getD n 0

/-- Source `point_mat.total()`: the number of scalar entries, rows * cols. -/
def PointMat.scalarCount (m : PointMat) : ℕ := m.rows * m.cols

/-- The fallback corner square of detect_qr_codes: side
`(img_width.min(img_height) * 0.6)`, centered, corners listed clockwise from
the top-left; no one-decimal rounding is applied on this path. -/
def fallbackCoordinates (imgW imgH : ℤ) : List (ℚ × ℚ) :=
  let w : ℚ := (imgW : ℚ)
  let h : ℚ := (imgH : ℚ)
  let size : ℚ := min w h * (0.6 : ℚ)
  let xOffset : ℚ := (w - size) / 2
  let yOffset : ℚ := (h - size) / 2
  [(xOffset, yOffset),
   (xOffset + size, yOffset),
   (xOffset + size, yOffset + size),
   (xOffset, yOffset + size)]

/-- The three-way corner extraction of detect_qr_codes when a point matrix is
present (src/main.rs lines 137-167): a rows ≥ 4, cols ≥ 2 block is read by
rows with one-decimal rounding; otherwise a buffer of ≥ 8 scalars is read as
flat (x, y) pairs with one-decimal rounding; otherwise the fallback square. -/
def extractWithMat (m : PointMat) (imgW imgH : ℤ) : List (ℚ × ℚ) :=
  if 4 ≤ m.rows ∧ 2 ≤ m.cols then
    (List.range 4).map (fun j => (round1 (m.at2d j 0), round1 (m.at2d j 1)))
  else if 8 ≤ m.scalarCount then
    (List.range 4).map (fun j => (round1 (m.atFlat (2 * j)), round1 (m.atFlat (2 * j + 1))))
  else
    fallbackCoordinates imgW imgH

/-- Minimum of a list of rationals.  The source folds `f32::min` with an
`INFINITY` seed; on the nonempty lists reaching it this coincides with the
fold below seeded with the first element (ℚ has no infinities). -/
def foldMin : List ℚ → ℚ
  | [] => 0
  | x :: xs => xs.foldl min x

/-- Maximum of a list of rationals, seeded like `foldMin` (the source seeds
with `NEG_INFINITY`). -/
def foldMax : List ℚ → ℚ
  | [] => 0
  | x :: xs => xs.foldl max x

structure BoundingBox where
  x : ℚ
  y : ℚ
  width : ℚ
  height : ℚ
  deriving DecidableEq, Repr

/-- Bounding box computation with one-decimal rounding of each component, as
done in the branch of detect_qr_codes that has a point matrix. -/
def bboxRounded (coords : List (ℚ × ℚ)) : BoundingBox :=
  let minX := foldMin (coords.map Prod.fst)
  let maxX := foldMax (coords.map Prod.fst)
  let minY := foldMin (coords.map Prod.snd)
  let maxY := foldMax (coords.map Prod.snd)
  { x := round1 minX
    y := round1 minY
    width := round1 (maxX - minX)
    height := round1 (maxY - minY) }

/-- Bounding box computation without rounding, as done in the branch of
detect_qr_codes that has no point matrix for the code. -/
def bboxRaw (coords : List (ℚ × ℚ)) : BoundingBox :=
  let minX := foldMin (coords.map Prod.fst)
  let maxX := foldMax (coords.map Prod.fst)
  let minY := foldMin (coords.map Prod.snd)
  let maxY := foldMax (coords.map Prod.snd)
  { x := minX
    y := minY
    width := maxX - minX
    height := maxY - minY }

structure QRCodeResult where
  text : String
  points : List (ℚ × ℚ)
  bbox : BoundingBox
  deriving DecidableEq, Repr

/-- Assembly of one detected code (one iteration of the loop in
detect_qr_codes).  With a point matrix (`i < points.len()`), the three-way
extraction runs and the entry is pushed, with a rounded bounding box, only if
the coordinate list is nonempty; without one, the fallback square is pushed
with an unrounded bounding box. -/
def processCode (text : String) (pm : Option PointMat) (imgW imgH : ℤ) :
    Option QRCodeResult :=
  match pm with
  | some m =>
    if extractWithMat m imgW imgH = [] then none
    else some { text := text, points := extractWithMat m imgW imgH,
                bbox := bboxRounded (extractWithMat m imgW imgH) }
  | none =>
    some { text := text, points := fallbackCoordinates imgW imgH,
           bbox := bboxRaw (fallbackCoordinates imgW imgH) }

/-- The geometry part of QRCodeDetector::detect_qr_codes: given the decoded
strings and the per-code point matrices returned by the black-box detector,
assemble the result list. -/
def detect_qr_codes (decodedInfo : List String) (mats : List PointMat)
    (imgW imgH : ℤ) : List QRCodeResult :=
  if decodedInfo.isEmpty then []
  else (List.range decodedInfo.length).filterMap fun i =>
    processCode (decodedInfo.getD i "") mats[i]? imgW imgH


/-! Pool, pipeline and ingress adapters. -/

/-- Outcome of turning the submitted bytes into a decoded image
(`Mat::from_slice` followed by `imdecode` followed by the `empty()` check);
the codec is a black box, so this enters the model as a parameter. -/
inductive DecodeOutcome where
  | matError (e : String)
  | decodeError (e : String)
  | emptyImage
  | decoded (w h : ℤ)
  deriving DecidableEq, Repr

/-- Outcome of the black-box `detect_and_decode` call on the decoded image:
the decoded strings with their per-code point matrices, or an error. -/
inductive DetectOutcome where
  | ok (decodedInfo : List String) (mats : List PointMat)
  | err (e : String)
  deriving DecidableEq, Repr

/-- The behaviour of the external collaborators on one request's bytes, plus
the observed stage timings (opaque nonnegative wall-clock numbers in the
source, carried as parameters here). -/
structure PipelineEnv where
  decode : DecodeOutcome
  detectorResult : DetectOutcome
  constructorOk : Bool
  decodeMs : ℚ
  detectMs : ℚ
  poolMs : ℚ
  totalMs : ℚ
  deriving DecidableEq, Repr

structure DetectionStatistics where
  image_decode_time_ms : ℚ
  detection_time_ms : ℚ
  total_time_ms : ℚ
  image_width : ℤ
  image_height : ℤ
  pool_acquisition_time_ms : ℚ
  deriving DecidableEq, Repr

structure DetectionResponse where
  success : Bool
  message : String
  qrcodes : List QRCodeResult
  count : ℕ
  statistics : DetectionStatistics
  deriving DecidableEq, Repr

/-- get_pool_config: POOL_INITIAL_SIZE (absent or unparseable counts as the
default 10) clamped to [1, 100]; POOL_MAX_SIZE (default 50) clamped to
[initial, 200]. -/
def get_pool_config (rawInitial rawMax : Option ℕ) : ℕ × ℕ :=
  let initial_size := min (max (rawInitial.getD 10) 1) 100
  let max_size := min (max (rawMax.getD 50) initial_size) 200
  (initial_size, max_size)

/-- State of the shared detector pool: the stack of available instances (by
id, object_pool keeps a Vec used LIFO) and the next fresh instance id. -/
structure PoolState where
  available : List ℕ
  nextId : ℕ
  deriving DecidableEq, Repr

/-- Pool::new(initial_size, ..) as called in get_detector_pool: the pool
starts with initial_size pre-built instances. -/
def PoolState.init (n : ℕ) : PoolState := ⟨List.range n, n⟩

/-- Result of object_pool's `pull` with the panicking fallback closure the
handlers pass: an instance plus the new pool state, or a process-fatal
outcome when the pool is empty and the on-demand construction fails. -/
inductive PullResult where
  | ok (d : ℕ) (s : PoolState)
  | fatal
  deriving DecidableEq, Repr

/-- object_pool `pull(fallback)`: pop an available instance if there is one;
otherwise run the fallback closure, which constructs a fresh instance or, on
construction failure, ends the process (the source closure ends the task
with an unrecoverable failure instead of returning an error). -/
def PoolState.pullWith (s : PoolState) (constructorOk : Bool) : PullResult :=
  match s.available with
  | d :: rest => .ok d ⟨rest, s.nextId⟩
  | [] => if constructorOk then .ok s.nextId ⟨[], s.nextId + 1⟩ else .fatal

/-- object_pool `attach`, run by the guard's Drop when a handler releases its
detector: the instance is pushed back unconditionally (the Vec grows as
needed; no capacity check is made and max_size is never consulted). -/
def PoolState.release (s : PoolState) (d : ℕ) : PoolState :=
  ⟨d :: s.available, s.nextId⟩

/-- get_detector_pool's one-time warm-up under Once: builds the initial
instances, or ends the process if construction fails (none). -/
def initDetectorPool (constructorOk : Bool) (initialSize : ℕ) : Option PoolState :=
  if constructorOk then some (PoolState.init initialSize) else none

inductive HttpOutcome where
  | ok (r : DetectionResponse)
  | status (code : ℕ)
  | fatal
  deriving DecidableEq, Repr

/-- Result of one HTTP handler invocation: the response outcome, the pool
state after the handler, and whether a pool acquisition was performed. -/
structure HttpStep where
  outcome : HttpOutcome
  pool : PoolState
  poolAcquired : Bool
  deriving DecidableEq, Repr

/-- The decode, acquire, detect, assemble body shared verbatim by
detect_from_file (after the field is found) and detect_from_base64 (after
base64 decoding): codec errors give 400, an empty image gives the soft
success-false response with zero detection and pool times, a detector error
gives 500, and the detector handle is released by Drop on every path that
acquired it. -/
def detectPipelineHttp (env : PipelineEnv) (pool : PoolState) : HttpStep :=
  match env.decode with
  | .matError _ => ⟨.status 400, pool, false⟩
  | .decodeError _ => ⟨.status 400, pool, false⟩
  | .emptyImage =>
    ⟨.ok (DetectionResponse.mk false "Invalid image format" [] 0
        (DetectionStatistics.mk env.decodeMs 0 env.totalMs 0 0 0)), pool, false⟩
  | .decoded w h =>
    match pool.pullWith env.constructorOk with
    | .fatal => ⟨.fatal, pool, true⟩
    | .ok d s =>
      match env.detectorResult with
      | .err _ => ⟨.status 500, s.release d, true⟩
      | .ok info mats =>
        ⟨.ok (DetectionResponse.mk true
            ("Detected " ++ toString (detect_qr_codes info mats w h).length
              ++ " QR code(s)")
            (detect_qr_codes info mats w h)
            (detect_qr_codes info mats w h).length
            (DetectionStatistics.mk env.decodeMs env.detectMs env.totalMs w h
              env.poolMs)),
          s.release d, true⟩

/-- detect_from_file: scan the multipart fields for the first one named
image or file and run the pipeline on its bytes; no such field is a 400.
Each field carries the collaborator behaviour its bytes would produce. -/
def detect_from_file (fields : List (String × PipelineEnv)) (pool : PoolState) :
    HttpStep :=
  match fields.find? (fun f => f.1 = "image" || f.1 = "file") with
  | some (_, env) => detectPipelineHttp env pool
  | none => ⟨.status 400, pool, false⟩

/-- detect_from_base64: none models a payload without the image key (400);
an error models base64 decode failure (400); otherwise the common body runs
on the decoded bytes. -/
def detect_from_base64 (imageField : Option (Except String PipelineEnv))
    (pool : PoolState) : HttpStep :=
  match imageField with
  | none => ⟨.status 400, pool, false⟩
  | some (.error _) => ⟨.status 400, pool, false⟩
  | some (.ok env) => detectPipelineHttp env pool

inductive WsPipeOutcome where
  | ok (r : DetectionResponse)
  | err (e : String)
  | fatal
  deriving DecidableEq, Repr

/-- Result of the WebSocket-side detection helpers. -/
structure WsPipeStep where
  outcome : WsPipeOutcome
  pool : PoolState
  poolAcquired : Bool
  deriving DecidableEq, Repr

/-- detect_qr_from_base64: base64 decode failure and codec failures are
string errors, an empty image is the soft success-false response, a detector
error is a string error after the handle is released. -/
def detect_qr_from_base64 (b64 : Except String PipelineEnv) (pool : PoolState) :
    WsPipeStep :=
  match b64 with
  | .error e => ⟨.err ("Failed to decode base64: " ++ e), pool, false⟩
  | .ok env =>
    match env.decode with
    | .matError e => ⟨.err ("Failed to create Mat from base64 data: " ++ e), pool, false⟩
    | .decodeError e => ⟨.err ("Failed to decode image from base64: " ++ e), pool, false⟩
    | .emptyImage =>
      ⟨.ok (DetectionResponse.mk false "Invalid image format" [] 0
          (DetectionStatistics.mk env.decodeMs 0 env.totalMs 0 0 0)), pool, false⟩
    | .decoded w h =>
      match pool.pullWith env.constructorOk with
      | .fatal => ⟨.fatal, pool, true⟩
      | .ok d s =>
        match env.detectorResult with
        | .err e => ⟨.err ("QRCode detection failed: " ++ e), s.release d, true⟩
        | .ok info mats =>
          ⟨.ok (DetectionResponse.mk true
              ("Detected " ++ toString (detect_qr_codes info mats w h).length
                ++ " QR code(s)")
              (detect_qr_codes info mats w h)
              (detect_qr_codes info mats w h).length
              (DetectionStatistics.mk env.decodeMs env.detectMs env.totalMs w h
                env.poolMs)),
            s.release d, true⟩

/-- detect_qr_from_binary: the same body on raw binary frame bytes, without
a base64 step. -/
def detect_qr_from_binary (env : PipelineEnv) (pool : PoolState) : WsPipeStep :=
  match env.decode with
  | .matError e => ⟨.err ("Failed to create Mat from binary data: " ++ e), pool, false⟩
  | .decodeError e => ⟨.err ("Failed to decode image from binary data: " ++ e), pool, false⟩
  | .emptyImage =>
    ⟨.ok (DetectionResponse.mk false "Invalid image format" [] 0
        (DetectionStatistics.mk env.decodeMs 0 env.totalMs 0 0 0)), pool, false⟩
  | .decoded w h =>
    match pool.pullWith env.constructorOk with
    | .fatal => ⟨.fatal, pool, true⟩
    | .ok d s =>
      match env.detectorResult with
      | .err e => ⟨.err ("QRCode detection failed: " ++ e), s.release d, true⟩
      | .ok info mats =>
        ⟨.ok (DetectionResponse.mk true
            ("Detected " ++ toString (detect_qr_codes info mats w h).length
              ++ " QR code(s)")
            (detect_qr_codes info mats w h)
            (detect_qr_codes info mats w h).length
            (DetectionStatistics.mk env.decodeMs env.detectMs env.totalMs w h
              env.poolMs)),
          s.release d, true⟩

structure WebSocketRequest where
  msg_type : String
  image : Option String
  deriving DecidableEq, Repr

structure WebSocketResponse where
  msg_type : String
  success : Bool
  message : String
  qrcodes : Option (List QRCodeResult)
  count : Option ℕ
  statistics : Option DetectionStatistics
  error : Option String
  deriving DecidableEq, Repr

/-- Outcome of handling one WebSocket request: a response envelope, or the
process-fatal pull outcome. -/
inductive WsReqOutcome where
  | resp (r : WebSocketResponse)
  | fatal
  deriving DecidableEq, Repr

/-- handle_websocket_request: detect routes to detect_qr_from_base64 and
wraps its outcome, close acknowledges with a close envelope, anything else is
an error envelope.  `b64Of` gives, per base64 payload, the behaviour of the
base64 codec and of the downstream collaborators on the decoded bytes. -/
def handle_websocket_request (req : WebSocketRequest)
    (b64Of : String → Except String PipelineEnv) (pool : PoolState) :
    WsReqOutcome × PoolState :=
  match req.msg_type with
  | "detect" =>
    match req.image with
    | some img =>
      match detect_qr_from_base64 (b64Of img) pool with
      | ⟨.ok r, pool2, _⟩ =>
        (.resp (WebSocketResponse.mk "detection_result" r.success r.message
            (some r.qrcodes) (some r.count) (some r.statistics) none), pool2)
      | ⟨.err e, pool2, _⟩ =>
        (.resp (WebSocketResponse.mk "error" false "Detection failed"
            none none none (some e)), pool2)
      | ⟨.fatal, pool2, _⟩ => (.fatal, pool2)
    | none =>
      (.resp (WebSocketResponse.mk "error" false "Missing image data"
          none none none (some "No image field in request")), pool)
  | "close" =>
    (.resp (WebSocketResponse.mk "close" true "Connection closing"
        none none none none), pool)
  | other =>
    (.resp (WebSocketResponse.mk "error" false ("Unknown message type: " ++ other)
        none none none (some "Unsupported message type")), pool)

/-- handle_websocket_binary_request: run the binary pipeline and wrap. -/
def handle_websocket_binary_request (env : PipelineEnv) (pool : PoolState) :
    WsReqOutcome × PoolState :=
  match detect_qr_from_binary env pool with
  | ⟨.ok r, pool2, _⟩ =>
    (.resp (WebSocketResponse.mk "detection_result" r.success r.message
        (some r.qrcodes) (some r.count) (some r.statistics) none), pool2)
  | ⟨.err e, pool2, _⟩ =>
    (.resp (WebSocketResponse.mk "error" false "Binary detection failed"
        none none none (some e)), pool2)
  | ⟨.fatal, pool2, _⟩ => (.fatal, pool2)

/-- One incoming WebSocket event as the handle_websocket loop classifies it:
a text frame that parses as a request, a text frame serde rejects (with the
parse error), a binary frame (with the collaborator behaviour on its bytes),
a transport close frame, ping, pong, or a transport error. -/
inductive WsIncoming where
  | textParsed (req : WebSocketRequest)
  | textUnparsable (e : String)
  | binary (env : PipelineEnv)
  | closeFrame
  | ping
  | pong
  | transportError

/-- A frame the session sends back. -/
inductive WsFrame where
  | text (r : WebSocketResponse)
  | pong
  deriving DecidableEq, Repr

/-- The message loop of handle_websocket (sends assumed delivered): returns
the frames sent and how many incoming messages were consumed.  A parsed text
request is answered and, when the response envelope is of type close, the
loop ends; a parse failure is answered with an Invalid request format error
envelope and the loop continues; a binary frame is answered and the loop
continues; a transport close or error ends the loop; ping is answered with
pong.  A fatal pull ends the task with nothing further sent. -/
def wsSessionLoop (b64Of : String → Except String PipelineEnv) :
    List WsIncoming → PoolState → List WsFrame × ℕ
  | [], _ => ([], 0)
  | msg :: rest, pool =>
    match msg with
    | .textParsed req =>
      match handle_websocket_request req b64Of pool with
      | (.resp r, pool2) =>
        if r.msg_type = "close" then ([.text r], 1)
        else
          let next := wsSessionLoop b64Of rest pool2
          (.text r :: next.1, next.2 + 1)
      | (.fatal, _) => ([], 1)
    | .textUnparsable e =>
      let next := wsSessionLoop b64Of rest pool
      (.text (WebSocketResponse.mk "error" false "Invalid request format"
          none none none (some ("Parse error: " ++ e))) :: next.1, next.2 + 1)
    | .binary env =>
      match handle_websocket_binary_request env pool with
      | (.resp r, pool2) =>
        let next := wsSessionLoop b64Of rest pool2
        (.text r :: next.1, next.2 + 1)
      | (.fatal, _) => ([], 1)
    | .closeFrame => ([], 1)
    | .ping =>
      let next := wsSessionLoop b64Of rest pool
      (.pong :: next.1, next.2 + 1)
    | .pong =>
      let next := wsSessionLoop b64Of rest pool
      (next.1, next.2 + 1)
    | .transportError => ([], 1)

/-- handle_websocket: send the connected acknowledgment, then run the loop. -/
def handle_websocket (b64Of : String → Except String PipelineEnv)
    (msgs : List WsIncoming) (pool : PoolState) : List WsFrame × ℕ :=
  (.text (WebSocketResponse.mk "connected" true "WebSocket connected successfully"
      none none none none) :: (wsSessionLoop b64Of msgs pool).1,
    (wsSessionLoop b64Of msgs pool).2)

/-! Arithmetic facts about one-decimal values. -/

/-- A rational representable with one decimal digit. -/
def IsTenth (x : ℚ) : Prop := ∃ n : ℤ, x = (n : ℚ) / 10

theorem f32round_intCast (n : ℤ) : f32round (n : ℚ) = n := by
  unfold f32round
  split_ifs with h
  · rw [Int.floor_eq_iff]
    constructor <;> norm_num
  · rw [Int.ceil_eq_iff]
    constructor <;> norm_num

theorem round1_tenth_fixed (n : ℤ) : round1 ((n : ℚ) / 10) = (n : ℚ) / 10 := by
  unfold round1
  have h : ((n : ℚ) / 10) * 10 = (n : ℚ) := by
    field_simp
  rw [h, f32round_intCast]

theorem isTenth_round1 (x : ℚ) : IsTenth (round1 x) := ⟨f32round (x * 10), rfl⟩

theorem round1_eq_self {x : ℚ} (h : IsTenth x) : round1 x = x := by
  obtain ⟨n, rfl⟩ := h
  exact round1_tenth_fixed n

theorem isTenth_min {a b : ℚ} (ha : IsTenth a) (hb : IsTenth b) : IsTenth (min a b) := by
  obtain ⟨m, rfl⟩ := ha
  obtain ⟨n, rfl⟩ := hb
  refine ⟨min m n, ?_⟩
  rw [min_div_div_right (by norm_num : (0:ℚ) ≤ 10)]
  push_cast
  ring_nf

theorem isTenth_max {a b : ℚ} (ha : IsTenth a) (hb : IsTenth b) : IsTenth (max a b) := by
  obtain ⟨m, rfl⟩ := ha
  obtain ⟨n, rfl⟩ := hb
  refine ⟨max m n, ?_⟩
  rw [max_div_div_right (by norm_num : (0:ℚ) ≤ 10)]
  push_cast
  ring_nf

theorem isTenth_sub {a b : ℚ} (ha : IsTenth a) (hb : IsTenth b) : IsTenth (a - b) := by
  obtain ⟨m, rfl⟩ := ha
  obtain ⟨n, rfl⟩ := hb
  exact ⟨m - n, by push_cast; ring⟩

theorem foldl_min_isTenth (xs : List ℚ) :
    ∀ a : ℚ, IsTenth a → (∀ y ∈ xs, IsTenth y) → IsTenth (xs.foldl min a) := by
  induction xs with
  | nil => intro a ha _; simpa using ha
  | cons x xs ih =>
    intro a ha hxs
    simp only [List.foldl_cons]
    exact ih (min a x) (isTenth_min ha (hxs x (by simp)))
      (fun y hy => hxs y (by simp [hy]))

theorem foldl_max_isTenth (xs : List ℚ) :
    ∀ a : ℚ, IsTenth a → (∀ y ∈ xs, IsTenth y) → IsTenth (xs.foldl max a) := by
  induction xs with
  | nil => intro a ha _; simpa using ha
  | cons x xs ih =>
    intro a ha hxs
    simp only [List.foldl_cons]
    exact ih (max a x) (isTenth_max ha (hxs x (by simp)))
      (fun y hy => hxs y (by simp [hy]))

theorem foldMin_isTenth {l : List ℚ} (h : ∀ y ∈ l, IsTenth y) : IsTenth (foldMin l) := by
  match l with
  | [] => exact ⟨0, by simp [foldMin, foldMax]⟩
  | x :: xs =>
    exact foldl_min_isTenth xs x (h x (by simp)) (fun y hy => h y (by simp [hy]))

theorem foldMax_isTenth {l : List ℚ} (h : ∀ y ∈ l, IsTenth y) : IsTenth (foldMax l) := by
  match l with
  | [] => exact ⟨0, by simp [foldMin, foldMax]⟩
  | x :: xs =>
    exact foldl_max_isTenth xs x (h x (by simp)) (fun y hy => h y (by simp [hy]))

theorem fallbackCoordinates_isTenth (w h : ℤ) :
    ∀ p ∈ fallbackCoordinates w h, IsTenth p.1 ∧ IsTenth p.2 := by
  intro p hp
  have hmin : min (w : ℚ) (h : ℚ) = ((min w h : ℤ) : ℚ) := by
    push_cast; ring_nf
  have hx0 : ((w : ℚ) - min (w : ℚ) (h : ℚ) * (0.6 : ℚ)) / 2
      = ((5 * w - 3 * min w h : ℤ) : ℚ) / 10 := by
    rw [hmin]; push_cast; ring_nf
  have hx1 : ((w : ℚ) - min (w : ℚ) (h : ℚ) * (0.6 : ℚ)) / 2
        + min (w : ℚ) (h : ℚ) * (0.6 : ℚ)
      = ((5 * w + 3 * min w h : ℤ) : ℚ) / 10 := by
    rw [hmin]; push_cast; ring_nf
  have hy0 : ((h : ℚ) - min (w : ℚ) (h : ℚ) * (0.6 : ℚ)) / 2
      = ((5 * h - 3 * min w h : ℤ) : ℚ) / 10 := by
    rw [hmin]; push_cast; ring_nf
  have hy1 : ((h : ℚ) - min (w : ℚ) (h : ℚ) * (0.6 : ℚ)) / 2
        + min (w : ℚ) (h : ℚ) * (0.6 : ℚ)
      = ((5 * h + 3 * min w h : ℤ) : ℚ) / 10 := by
    rw [hmin]; push_cast; ring_nf
  simp only [fallbackCoordinates, List.mem_cons, List.not_mem_nil, or_false] at hp
  rcases hp with rfl | rfl | rfl | rfl
  · exact ⟨⟨_, hx0⟩, ⟨_, hy0⟩⟩
  · exact ⟨⟨_, hx1⟩, ⟨_, hy0⟩⟩
  · exact ⟨⟨_, hx1⟩, ⟨_, hy1⟩⟩
  · exact ⟨⟨_, hx0⟩, ⟨_, hy1⟩⟩

theorem extractWithMat_isTenth (m : PointMat) (w h : ℤ) :
    ∀ p ∈ extractWithMat m w h, IsTenth p.1 ∧ IsTenth p.2 := by
  intro p hp
  unfold extractWithMat at hp
  split_ifs at hp with h1 h2
  · simp only [List.mem_map, List.mem_range] at hp
    obtain ⟨j, _, rfl⟩ := hp
    exact ⟨isTenth_round1 _, isTenth_round1 _⟩
  · simp only [List.mem_map, List.mem_range] at hp
    obtain ⟨j, _, rfl⟩ := hp
    exact ⟨isTenth_round1 _, isTenth_round1 _⟩
  · exact fallbackCoordinates_isTenth w h p hp

theorem extractWithMat_length (m : PointMat) (w h : ℤ) :
    (extractWithMat m w h).length = 4 := by
  unfold extractWithMat
  split_ifs <;> simp [fallbackCoordinates]

theorem fallbackCoordinates_explicit (w h : ℤ) :
    fallbackCoordinates w h =
      [(((w : ℚ) - 0.6 * min (w : ℚ) (h : ℚ)) / 2,
        ((h : ℚ) - 0.6 * min (w : ℚ) (h : ℚ)) / 2),
       (((w : ℚ) - 0.6 * min (w : ℚ) (h : ℚ)) / 2 + 0.6 * min (w : ℚ) (h : ℚ),
        ((h : ℚ) - 0.6 * min (w : ℚ) (h : ℚ)) / 2),
       (((w : ℚ) - 0.6 * min (w : ℚ) (h : ℚ)) / 2 + 0.6 * min (w : ℚ) (h : ℚ),
        ((h : ℚ) - 0.6 * min (w : ℚ) (h : ℚ)) / 2 + 0.6 * min (w : ℚ) (h : ℚ)),
       (((w : ℚ) - 0.6 * min (w : ℚ) (h : ℚ)) / 2,
        ((h : ℚ) - 0.6 * min (w : ℚ) (h : ℚ)) / 2 + 0.6 * min (w : ℚ) (h : ℚ))] := by
  simp only [fallbackCoordinates, List.cons.injEq, Prod.mk.injEq, and_true]
  norm_num
  ring_nf
  simp

/-- C1: corner extraction follows the precedence rows ≥ 4 with cols ≥ 2 first
(rows 0..3, columns 0 and 1, each component rounded to one decimal place),
then a flattened buffer of at least 8 scalars (pairs at indices 2j and 2j+1,
rounded), and only when neither shape applies the synthetic fallback square,
whose coordinates carry no one-decimal rounding. -/
theorem c1_extraction_precedence (m : PointMat) (w h : ℤ) :
    (4 ≤ m.rows ∧ 2 ≤ m.cols →
      extractWithMat m w h =
        [(round1 (m.at2d 0 0), round1 (m.at2d 0 1)),
         (round1 (m.at2d 1 0), round1 (m.at2d 1 1)),
         (round1 (m.at2d 2 0), round1 (m.at2d 2 1)),
         (round1 (m.at2d 3 0), round1 (m.at2d 3 1))]) ∧
    (¬ (4 ≤ m.rows ∧ 2 ≤ m.cols) → 8 ≤ m.scalarCount →
      extractWithMat m w h =
        [(round1 (m.atFlat 0), round1 (m.atFlat 1)),
         (round1 (m.atFlat 2), round1 (m.atFlat 3)),
         (round1 (m.atFlat 4), round1 (m.atFlat 5)),
         (round1 (m.atFlat 6), round1 (m.atFlat 7))]) ∧
    (¬ (4 ≤ m.rows ∧ 2 ≤ m.cols) → ¬ 8 ≤ m.scalarCount →
      extractWithMat m w h =
        [(((w : ℚ) - 0.6 * min (w : ℚ) (h : ℚ)) / 2,
          ((h : ℚ) - 0.6 * min (w : ℚ) (h : ℚ)) / 2),
         (((w : ℚ) - 0.6 * min (w : ℚ) (h : ℚ)) / 2 + 0.6 * min (w : ℚ) (h : ℚ),
          ((h : ℚ) - 0.6 * min (w : ℚ) (h : ℚ)) / 2),
         (((w : ℚ) - 0.6 * min (w : ℚ) (h : ℚ)) / 2 + 0.6 * min (w : ℚ) (h : ℚ),
          ((h : ℚ) - 0.6 * min (w : ℚ) (h : ℚ)) / 2 + 0.6 * min (w : ℚ) (h : ℚ)),
         (((w : ℚ) - 0.6 * min (w : ℚ) (h : ℚ)) / 2,
          ((h : ℚ) - 0.6 * min (w : ℚ) (h : ℚ)) / 2 + 0.6 * min (w : ℚ) (h : ℚ))]) := by
  refine ⟨?_, ?_, ?_⟩
  · intro h1
    unfold extractWithMat
    rw [if_pos h1]
    rfl
  · intro h1 h2
    unfold extractWithMat
    rw [if_neg h1, if_pos h2]
    rfl
  · intro h1 h2
    unfold extractWithMat
    rw [if_neg h1, if_neg h2]
    exact fallbackCoordinates_explicit w h

theorem c1_extraction_precedence_witness :
    (4 ≤ (PointMat.mk 4 2 [1, 2, 3, 4, 5, 6, 7, 8]).rows ∧
      2 ≤ (PointMat.mk 4 2 [1, 2, 3, 4, 5, 6, 7, 8]).cols) ∧
    extractWithMat (PointMat.mk 4 2 [1, 2, 3, 4, 5, 6, 7, 8]) 9 9 =
      [(round1 ((PointMat.mk 4 2 [1, 2, 3, 4, 5, 6, 7, 8]).at2d 0 0),
        round1 ((PointMat.mk 4 2 [1, 2, 3, 4, 5, 6, 7, 8]).at2d 0 1)),
       (round1 ((PointMat.mk 4 2 [1, 2, 3, 4, 5, 6, 7, 8]).at2d 1 0),
        round1 ((PointMat.mk 4 2 [1, 2, 3, 4, 5, 6, 7, 8]).at2d 1 1)),
       (round1 ((PointMat.mk 4 2 [1, 2, 3, 4, 5, 6, 7, 8]).at2d 2 0),
        round1 ((PointMat.mk 4 2 [1, 2, 3, 4, 5, 6, 7, 8]).at2d 2 1)),
       (round1 ((PointMat.mk 4 2 [1, 2, 3, 4, 5, 6, 7, 8]).at2d 3 0),
        round1 ((PointMat.mk 4 2 [1, 2, 3, 4, 5, 6, 7, 8]).at2d 3 1))] :=
  ⟨⟨by decide, by decide⟩,
    (c1_extraction_precedence (PointMat.mk 4 2 [1, 2, 3, 4, 5, 6, 7, 8]) 9 9).1
      ⟨by decide, by decide⟩⟩

/-- C9: a 4-row, 2-column row-major block and the same eight values given as
a flattened 8-scalar buffer yield identical extracted point lists. -/
theorem c9_layout_equivalence (vals : List ℚ) (w h w2 h2 : ℤ)
    (_hlen : vals.length = 8) :
    extractWithMat (PointMat.mk 4 2 vals) w h
      = extractWithMat (PointMat.mk 8 1 vals) w2 h2 := by
  rfl

theorem c9_layout_equivalence_witness :
    ([(1:ℚ), 2, 3, 4, 5, 6, 7, 8].length = 8) ∧
    extractWithMat (PointMat.mk 4 2 [(1:ℚ), 2, 3, 4, 5, 6, 7, 8]) 1 2
      = extractWithMat (PointMat.mk 8 1 [(1:ℚ), 2, 3, 4, 5, 6, 7, 8]) 3 4 :=
  ⟨by decide, c9_layout_equivalence [(1:ℚ), 2, 3, 4, 5, 6, 7, 8] 1 2 3 4 (by decide)⟩

theorem map_fst_isTenth {coords : List (ℚ × ℚ)}
    (h : ∀ p ∈ coords, IsTenth p.1 ∧ IsTenth p.2) :
    ∀ y ∈ coords.map Prod.fst, IsTenth y := by
  intro y hy
  simp only [List.mem_map] at hy
  obtain ⟨p, hp, rfl⟩ := hy
  exact (h p hp).1

theorem map_snd_isTenth {coords : List (ℚ × ℚ)}
    (h : ∀ p ∈ coords, IsTenth p.1 ∧ IsTenth p.2) :
    ∀ y ∈ coords.map Prod.snd, IsTenth y := by
  intro y hy
  simp only [List.mem_map] at hy
  obtain ⟨p, hp, rfl⟩ := hy
  exact (h p hp).2

/-- C2: for every emitted code, whatever extraction path produced its points,
the bounding box is the axis-aligned min/max enclosure of the points, and each
bounding-box coordinate is a one-decimal value (fixed by the one-decimal
rounding). -/
theorem c2_bbox_invariant (text : String) (pm : Option PointMat) (w h : ℤ)
    (r : QRCodeResult) (hr : processCode text pm w h = some r) :
    r.bbox.x = foldMin (r.points.map Prod.fst) ∧
    r.bbox.y = foldMin (r.points.map Prod.snd) ∧
    r.bbox.width = foldMax (r.points.map Prod.fst) - foldMin (r.points.map Prod.fst) ∧
    r.bbox.height = foldMax (r.points.map Prod.snd) - foldMin (r.points.map Prod.snd) ∧
    round1 r.bbox.x = r.bbox.x ∧ round1 r.bbox.y = r.bbox.y ∧
    round1 r.bbox.width = r.bbox.width ∧ round1 r.bbox.height = r.bbox.height := by
  cases pm with
  | none =>
    simp only [processCode, Option.some.injEq] at hr
    subst hr
    have ht := fallbackCoordinates_isTenth w h
    refine ⟨rfl, rfl, rfl, rfl, ?_, ?_, ?_, ?_⟩
    · exact round1_eq_self (foldMin_isTenth (map_fst_isTenth ht))
    · exact round1_eq_self (foldMin_isTenth (map_snd_isTenth ht))
    · exact round1_eq_self
        (isTenth_sub (foldMax_isTenth (map_fst_isTenth ht))
          (foldMin_isTenth (map_fst_isTenth ht)))
    · exact round1_eq_self
        (isTenth_sub (foldMax_isTenth (map_snd_isTenth ht))
          (foldMin_isTenth (map_snd_isTenth ht)))
  | some m =>
    have hne : ¬ extractWithMat m w h = [] := by
      intro hc
      have hl := extractWithMat_length m w h
      rw [hc] at hl
      simp at hl
    simp only [processCode, if_neg hne, Option.some.injEq] at hr
    subst hr
    have ht := extractWithMat_isTenth m w h
    have hminx := foldMin_isTenth (map_fst_isTenth ht)
    have hminy := foldMin_isTenth (map_snd_isTenth ht)
    have hwd := isTenth_sub (foldMax_isTenth (map_fst_isTenth ht)) hminx
    have hht := isTenth_sub (foldMax_isTenth (map_snd_isTenth ht)) hminy
    exact ⟨round1_eq_self hminx, round1_eq_self hminy,
      round1_eq_self hwd, round1_eq_self hht,
      round1_eq_self (isTenth_round1 _), round1_eq_self (isTenth_round1 _),
      round1_eq_self (isTenth_round1 _), round1_eq_self (isTenth_round1 _)⟩

theorem c2_bbox_invariant_witness :
    (processCode "t" (some (PointMat.mk 4 2 [10, 10, 290, 10, 290, 290, 10, 290]))
        300 300
      = some (QRCodeResult.mk "t" [(10, 10), (290, 10), (290, 290), (10, 290)]
          (BoundingBox.mk 10 10 280 280))) ∧
    ((QRCodeResult.mk "t" [((10:ℚ), (10:ℚ)), (290, 10), (290, 290), (10, 290)]
        (BoundingBox.mk 10 10 280 280)).bbox.x
      = foldMin (((QRCodeResult.mk "t"
          [((10:ℚ), (10:ℚ)), (290, 10), (290, 290), (10, 290)]
          (BoundingBox.mk 10 10 280 280)).points.map Prod.fst))) := by
  have hpc : processCode "t"
      (some (PointMat.mk 4 2 [10, 10, 290, 10, 290, 290, 10, 290])) 300 300
      = some (QRCodeResult.mk "t" [(10, 10), (290, 10), (290, 290), (10, 290)]
          (BoundingBox.mk 10 10 280 280)) := by
    norm_num [processCode, extractWithMat, PointMat.at2d, PointMat.scalarCount,
      bboxRounded, foldMin, foldMax, round1, f32round, List.range_succ,
      Int.floor_eq_iff, Prod.ext_iff]
    exact fun hcontra => absurd hcontra (List.cons_ne_nil _ _)
  constructor
  · exact hpc
  · exact (c2_bbox_invariant "t"
      (some (PointMat.mk 4 2 [10, 10, 290, 10, 290, 290, 10, 290])) 300 300
      (QRCodeResult.mk "t" [(10, 10), (290, 10), (290, 290), (10, 290)]
        (BoundingBox.mk 10 10 280 280)) hpc).1

theorem foldMin_quadX (a s : ℚ) (hs : 0 ≤ s) : foldMin [a, a + s, a + s, a] = a := by
  simp only [foldMin, List.foldl]
  rw [min_eq_left (le_add_of_nonneg_right hs),
    min_eq_left (le_add_of_nonneg_right hs), min_self]

theorem foldMax_quadX (a s : ℚ) (hs : 0 ≤ s) : foldMax [a, a + s, a + s, a] = a + s := by
  simp only [foldMax, List.foldl]
  rw [max_eq_right (le_add_of_nonneg_right hs), max_self,
    max_eq_left (le_add_of_nonneg_right hs)]

theorem foldMin_quadY (b s : ℚ) (hs : 0 ≤ s) : foldMin [b, b, b + s, b + s] = b := by
  simp only [foldMin, List.foldl]
  rw [min_self, min_eq_left (le_add_of_nonneg_right hs),
    min_eq_left (le_add_of_nonneg_right hs)]

theorem foldMax_quadY (b s : ℚ) (hs : 0 ≤ s) : foldMax [b, b, b + s, b + s] = b + s := by
  simp only [foldMax, List.foldl]
  rw [max_self, max_eq_right (le_add_of_nonneg_right hs), max_self]

/-- C3: for malformed or absent corner-point data and positive image
dimensions, both fallback branches emit exactly the 4 corners of the square of
side 0.6 * min(w, h) centered in the image, clockwise from the top-left, and
the resulting bounding box has equal width and height. -/
theorem c3_fallback_square (w h : ℤ) (hw : 0 < w) (hh : 0 < h) (text : String)
    (m : PointMat) (hshape : ¬ (4 ≤ m.rows ∧ 2 ≤ m.cols))
    (hcount : m.scalarCount < 8) :
    (∃ r, processCode text (some m) w h = some r ∧
      r.points =
        [(((w : ℚ) - 0.6 * min (w : ℚ) (h : ℚ)) / 2,
          ((h : ℚ) - 0.6 * min (w : ℚ) (h : ℚ)) / 2),
         (((w : ℚ) - 0.6 * min (w : ℚ) (h : ℚ)) / 2 + 0.6 * min (w : ℚ) (h : ℚ),
          ((h : ℚ) - 0.6 * min (w : ℚ) (h : ℚ)) / 2),
         (((w : ℚ) - 0.6 * min (w : ℚ) (h : ℚ)) / 2 + 0.6 * min (w : ℚ) (h : ℚ),
          ((h : ℚ) - 0.6 * min (w : ℚ) (h : ℚ)) / 2 + 0.6 * min (w : ℚ) (h : ℚ)),
         (((w : ℚ) - 0.6 * min (w : ℚ) (h : ℚ)) / 2,
          ((h : ℚ) - 0.6 * min (w : ℚ) (h : ℚ)) / 2 + 0.6 * min (w : ℚ) (h : ℚ))] ∧
      r.points.length = 4 ∧ r.bbox.width = r.bbox.height) ∧
    (∃ r, processCode text none w h = some r ∧
      r.points =
        [(((w : ℚ) - 0.6 * min (w : ℚ) (h : ℚ)) / 2,
          ((h : ℚ) - 0.6 * min (w : ℚ) (h : ℚ)) / 2),
         (((w : ℚ) - 0.6 * min (w : ℚ) (h : ℚ)) / 2 + 0.6 * min (w : ℚ) (h : ℚ),
          ((h : ℚ) - 0.6 * min (w : ℚ) (h : ℚ)) / 2),
         (((w : ℚ) - 0.6 * min (w : ℚ) (h : ℚ)) / 2 + 0.6 * min (w : ℚ) (h : ℚ),
          ((h : ℚ) - 0.6 * min (w : ℚ) (h : ℚ)) / 2 + 0.6 * min (w : ℚ) (h : ℚ)),
         (((w : ℚ) - 0.6 * min (w : ℚ) (h : ℚ)) / 2,
          ((h : ℚ) - 0.6 * min (w : ℚ) (h : ℚ)) / 2 + 0.6 * min (w : ℚ) (h : ℚ))] ∧
      r.points.length = 4 ∧ r.bbox.width = r.bbox.height) := by
  have hw' : (0 : ℚ) < (w : ℚ) := by exact_mod_cast hw
  have hh' : (0 : ℚ) < (h : ℚ) := by exact_mod_cast hh
  have hs : (0 : ℚ) ≤ min (w : ℚ) (h : ℚ) * (0.6 : ℚ) :=
    mul_nonneg (le_min hw'.le hh'.le) (by norm_num)
  have hext : extractWithMat m w h = fallbackCoordinates w h := by
    unfold extractWithMat
    rw [if_neg hshape, if_neg (by omega : ¬ 8 ≤ m.scalarCount)]
  have hne : ¬ fallbackCoordinates w h = [] := by
    simp [fallbackCoordinates]
  have hxs : (fallbackCoordinates w h).map Prod.fst
      = [((w : ℚ) - min (w : ℚ) (h : ℚ) * (0.6 : ℚ)) / 2,
         ((w : ℚ) - min (w : ℚ) (h : ℚ) * (0.6 : ℚ)) / 2 + min (w : ℚ) (h : ℚ) * (0.6 : ℚ),
         ((w : ℚ) - min (w : ℚ) (h : ℚ) * (0.6 : ℚ)) / 2 + min (w : ℚ) (h : ℚ) * (0.6 : ℚ),
         ((w : ℚ) - min (w : ℚ) (h : ℚ) * (0.6 : ℚ)) / 2] := rfl
  have hys : (fallbackCoordinates w h).map Prod.snd
      = [((h : ℚ) - min (w : ℚ) (h : ℚ) * (0.6 : ℚ)) / 2,
         ((h : ℚ) - min (w : ℚ) (h : ℚ) * (0.6 : ℚ)) / 2,
         ((h : ℚ) - min (w : ℚ) (h : ℚ) * (0.6 : ℚ)) / 2 + min (w : ℚ) (h : ℚ) * (0.6 : ℚ),
         ((h : ℚ) - min (w : ℚ) (h : ℚ) * (0.6 : ℚ)) / 2 + min (w : ℚ) (h : ℚ) * (0.6 : ℚ)]
      := rfl
  have hwid : foldMax ((fallbackCoordinates w h).map Prod.fst)
      - foldMin ((fallbackCoordinates w h).map Prod.fst)
      = min (w : ℚ) (h : ℚ) * (0.6 : ℚ) := by
    rw [hxs, foldMax_quadX _ _ hs, foldMin_quadX _ _ hs]
    ring
  have hhei : foldMax ((fallbackCoordinates w h).map Prod.snd)
      - foldMin ((fallbackCoordinates w h).map Prod.snd)
      = min (w : ℚ) (h : ℚ) * (0.6 : ℚ) := by
    rw [hys, foldMax_quadY _ _ hs, foldMin_quadY _ _ hs]
    ring
  constructor
  · refine ⟨QRCodeResult.mk text (fallbackCoordinates w h)
        (bboxRounded (fallbackCoordinates w h)), ?_, ?_, ?_, ?_⟩
    · simp only [processCode, hext, if_neg hne]
    · exact fallbackCoordinates_explicit w h
    · simp [fallbackCoordinates]
    · show round1 _ = round1 _
      rw [hwid, hhei]
  · refine ⟨QRCodeResult.mk text (fallbackCoordinates w h)
        (bboxRaw (fallbackCoordinates w h)), rfl, ?_, ?_, ?_⟩
    · exact fallbackCoordinates_explicit w h
    · simp [fallbackCoordinates]
    · show _ - _ = _ - _
      rw [hwid, hhei]

theorem c3_fallback_square_witness :
    ((0 : ℤ) < 5 ∧ (0 : ℤ) < 5 ∧ ¬ (4 ≤ (PointMat.mk 0 0 []).rows ∧
        2 ≤ (PointMat.mk 0 0 []).cols) ∧ (PointMat.mk 0 0 []).scalarCount < 8) ∧
    ((∃ r, processCode "t" (some (PointMat.mk 0 0 [])) 5 5 = some r ∧
      r.points =
        [((((5 : ℤ) : ℚ) - 0.6 * min ((5 : ℤ) : ℚ) ((5 : ℤ) : ℚ)) / 2,
          (((5 : ℤ) : ℚ) - 0.6 * min ((5 : ℤ) : ℚ) ((5 : ℤ) : ℚ)) / 2),
         ((((5 : ℤ) : ℚ) - 0.6 * min ((5 : ℤ) : ℚ) ((5 : ℤ) : ℚ)) / 2
            + 0.6 * min ((5 : ℤ) : ℚ) ((5 : ℤ) : ℚ),
          (((5 : ℤ) : ℚ) - 0.6 * min ((5 : ℤ) : ℚ) ((5 : ℤ) : ℚ)) / 2),
         ((((5 : ℤ) : ℚ) - 0.6 * min ((5 : ℤ) : ℚ) ((5 : ℤ) : ℚ)) / 2
            + 0.6 * min ((5 : ℤ) : ℚ) ((5 : ℤ) : ℚ),
          (((5 : ℤ) : ℚ) - 0.6 * min ((5 : ℤ) : ℚ) ((5 : ℤ) : ℚ)) / 2
            + 0.6 * min ((5 : ℤ) : ℚ) ((5 : ℤ) : ℚ)),
         ((((5 : ℤ) : ℚ) - 0.6 * min ((5 : ℤ) : ℚ) ((5 : ℤ) : ℚ)) / 2,
          (((5 : ℤ) : ℚ) - 0.6 * min ((5 : ℤ) : ℚ) ((5 : ℤ) : ℚ)) / 2
            + 0.6 * min ((5 : ℤ) : ℚ) ((5 : ℤ) : ℚ))] ∧
      r.points.length = 4 ∧ r.bbox.width = r.bbox.height) ∧
    (∃ r, processCode "t" none 5 5 = some r ∧
      r.points =
        [((((5 : ℤ) : ℚ) - 0.6 * min ((5 : ℤ) : ℚ) ((5 : ℤ) : ℚ)) / 2,
          (((5 : ℤ) : ℚ) - 0.6 * min ((5 : ℤ) : ℚ) ((5 : ℤ) : ℚ)) / 2),
         ((((5 : ℤ) : ℚ) - 0.6 * min ((5 : ℤ) : ℚ) ((5 : ℤ) : ℚ)) / 2
            + 0.6 * min ((5 : ℤ) : ℚ) ((5 : ℤ) : ℚ),
          (((5 : ℤ) : ℚ) - 0.6 * min ((5 : ℤ) : ℚ) ((5 : ℤ) : ℚ)) / 2),
         ((((5 : ℤ) : ℚ) - 0.6 * min ((5 : ℤ) : ℚ) ((5 : ℤ) : ℚ)) / 2
            + 0.6 * min ((5 : ℤ) : ℚ) ((5 : ℤ) : ℚ),
          (((5 : ℤ) : ℚ) - 0.6 * min ((5 : ℤ) : ℚ) ((5 : ℤ) : ℚ)) / 2
            + 0.6 * min ((5 : ℤ) : ℚ) ((5 : ℤ) : ℚ)),
         ((((5 : ℤ) : ℚ) - 0.6 * min ((5 : ℤ) : ℚ) ((5 : ℤ) : ℚ)) / 2,
          (((5 : ℤ) : ℚ) - 0.6 * min ((5 : ℤ) : ℚ) ((5 : ℤ) : ℚ)) / 2
            + 0.6 * min ((5 : ℤ) : ℚ) ((5 : ℤ) : ℚ))] ∧
      r.points.length = 4 ∧ r.bbox.width = r.bbox.height)) :=
  ⟨⟨by decide, by decide, by decide, by decide⟩,
    c3_fallback_square 5 5 (by decide) (by decide) "t" (PointMat.mk 0 0 [])
      (by decide) (by decide)⟩

/-- C4 counterexample: with POOL_INITIAL_SIZE=1 and POOL_MAX_SIZE=1 the
clamped max_size is 1; two concurrent borrowers drain the pool (the second
instance is constructed on demand), and releasing both pushes both back even
though the available count is not below max_size at the second release,
leaving 2 > max_size available instances.  max_size is never consulted by
release (get_detector_pool discards it), so the claimed drop never happens. -/
theorem c4_release_counterexample :
    get_pool_config (some 1) (some 1) = (1, 1) ∧
    (PoolState.init 1).pullWith true = PullResult.ok 0 (PoolState.mk [] 1) ∧
    (PoolState.mk [] 1).pullWith true = PullResult.ok 1 (PoolState.mk [] 2) ∧
    (PoolState.mk [] 2).release 0 = PoolState.mk [0] 2 ∧
    (PoolState.mk [0] 2).release 1 = PoolState.mk [1, 0] 2 ∧
    (PoolState.mk [1, 0] 2).available.length = 2 ∧
    2 > (get_pool_config (some 1) (some 1)).2 := by
  decide

/-- C4 amended: releasing a borrowed detector always returns it to the shared
pool, whatever the configured max_size (which is parsed and reported but
never enforced): every release grows the available count by one, so after all
borrowers release, the count is the initial size plus the number of on-demand
constructions and can exceed max_size. -/
theorem c4_release_always_returns (s : PoolState) (d : ℕ) :
    s.release d = PoolState.mk (d :: s.available) s.nextId ∧
    (s.release d).available.length = s.available.length + 1 :=
  ⟨rfl, by simp [PoolState.release]⟩

theorem pullWith_true_exists (s : PoolState) :
    ∃ d s2, s.pullWith true = PullResult.ok d s2 := by
  cases h : s.available with
  | nil =>
    refine ⟨s.nextId, PoolState.mk [] (s.nextId + 1), ?_⟩
    simp [PoolState.pullWith, h]
  | cons d rest =>
    refine ⟨d, PoolState.mk rest s.nextId, ?_⟩
    simp [PoolState.pullWith, h]

/-- C7: acquire hands out an available instance when one exists; on an empty
pool it constructs a fresh instance on demand (no blocking on another
request's release is modelled or needed); if that on-demand construction
fails the outcome is process-fatal and the pipeline propagates it as fatal,
not as an error status for the request; warm-up construction failure at pool
initialization is fatal as well. -/
theorem c7_acquire_on_demand_fatal (s : PoolState) (ctorOk : Bool) (n : ℕ)
    (env : PipelineEnv) (w h : ℤ) :
    (∀ d rest, s.available = d :: rest →
      s.pullWith ctorOk = PullResult.ok d (PoolState.mk rest s.nextId)) ∧
    (s.available = [] →
      s.pullWith true = PullResult.ok s.nextId (PoolState.mk [] (s.nextId + 1))) ∧
    (s.available = [] → s.pullWith false = PullResult.fatal) ∧
    initDetectorPool false n = none ∧
    (env.decode = DecodeOutcome.decoded w h → env.constructorOk = false →
      s.available = [] →
      (detectPipelineHttp env s).outcome = HttpOutcome.fatal ∧
      ∀ c, (detectPipelineHttp env s).outcome ≠ HttpOutcome.status c) := by
  refine ⟨?_, ?_, ?_, ?_, ?_⟩
  · intro d rest hav
    simp [PoolState.pullWith, hav]
  · intro hav
    simp [PoolState.pullWith, hav]
  · intro hav
    simp [PoolState.pullWith, hav]
  · simp [initDetectorPool]
  · intro hdec hctor hav
    constructor
    · simp [detectPipelineHttp, hdec, hctor, PoolState.pullWith, hav]
    · intro c
      simp [detectPipelineHttp, hdec, hctor, PoolState.pullWith, hav]

theorem c7_acquire_on_demand_fatal_witness :
    ((PoolState.mk [5] 7).available = 5 :: [] ∧
      (PoolState.mk [5] 7).pullWith true = PullResult.ok 5 (PoolState.mk [] 7)) ∧
    ((PoolState.mk [] 0).available = [] ∧
      (PoolState.mk [] 0).pullWith true = PullResult.ok 0 (PoolState.mk [] 1) ∧
      (PoolState.mk [] 0).pullWith false = PullResult.fatal) ∧
    initDetectorPool false 3 = none ∧
    (detectPipelineHttp
        (PipelineEnv.mk (DecodeOutcome.decoded 1 1) (DetectOutcome.ok [] [])
          false 0 0 0 0) (PoolState.mk [] 0)).outcome = HttpOutcome.fatal := by
  have h1 := c7_acquire_on_demand_fatal (PoolState.mk [5] 7) true 3
    (PipelineEnv.mk (DecodeOutcome.decoded 1 1) (DetectOutcome.ok [] []) false 0 0 0 0) 1 1
  have h2 := c7_acquire_on_demand_fatal (PoolState.mk [] 0) false 3
    (PipelineEnv.mk (DecodeOutcome.decoded 1 1) (DetectOutcome.ok [] []) false 0 0 0 0) 1 1
  exact ⟨⟨rfl, h1.1 5 [] rfl⟩,
    ⟨rfl, h2.2.1 rfl, h2.2.2.1 rfl⟩,
    h2.2.2.2.1,
    (h2.2.2.2.2 rfl rfl rfl).1⟩

/-- C5: when the submitted bytes decode to an empty or invalid image, every
ingress path — multipart upload, base64 JSON body, WebSocket binary frame and
WebSocket detect message — returns the normal soft result: success false, no
codes, count 0, zero detection and pool-acquisition times, the observed
decode time, no pool acquisition and an unchanged pool, not an error or
fault outcome. -/
theorem c5_empty_image_soft_result (env : PipelineEnv) (pool : PoolState)
    (hdec : env.decode = DecodeOutcome.emptyImage) :
    (∀ rest : List (String × PipelineEnv),
      detect_from_file (("image", env) :: rest) pool =
        HttpStep.mk (HttpOutcome.ok (DetectionResponse.mk false
          "Invalid image format" [] 0
          (DetectionStatistics.mk env.decodeMs 0 env.totalMs 0 0 0))) pool false) ∧
    detect_from_base64 (some (Except.ok env)) pool =
      HttpStep.mk (HttpOutcome.ok (DetectionResponse.mk false
        "Invalid image format" [] 0
        (DetectionStatistics.mk env.decodeMs 0 env.totalMs 0 0 0))) pool false ∧
    detect_qr_from_binary env pool =
      WsPipeStep.mk (WsPipeOutcome.ok (DetectionResponse.mk false
        "Invalid image format" [] 0
        (DetectionStatistics.mk env.decodeMs 0 env.totalMs 0 0 0))) pool false ∧
    (∀ (img : String) (b64Of : String → Except String PipelineEnv),
      b64Of img = Except.ok env →
      handle_websocket_request (WebSocketRequest.mk "detect" (some img)) b64Of pool =
        (WsReqOutcome.resp (WebSocketResponse.mk "detection_result" false
            "Invalid image format" (some []) (some 0)
            (some (DetectionStatistics.mk env.decodeMs 0 env.totalMs 0 0 0)) none),
          pool)) := by
  refine ⟨?_, ?_, ?_, ?_⟩
  · intro rest
    simp [detect_from_file, List.find?, detectPipelineHttp, hdec]
  · simp [detect_from_base64, detectPipelineHttp, hdec]
  · simp [detect_qr_from_binary, hdec]
  · intro img b64Of hb
    simp [handle_websocket_request, hb, detect_qr_from_base64, hdec]

theorem c5_empty_image_soft_result_witness :
    detect_from_file
        [("image", PipelineEnv.mk DecodeOutcome.emptyImage (DetectOutcome.ok [] [])
          true 2 0 0 7)] (PoolState.mk [] 0) =
      HttpStep.mk (HttpOutcome.ok (DetectionResponse.mk false
        "Invalid image format" [] 0 (DetectionStatistics.mk 2 0 7 0 0 0)))
        (PoolState.mk [] 0) false ∧
    detect_from_base64 (some (Except.ok (PipelineEnv.mk DecodeOutcome.emptyImage
        (DetectOutcome.ok [] []) true 2 0 0 7))) (PoolState.mk [] 0) =
      HttpStep.mk (HttpOutcome.ok (DetectionResponse.mk false
        "Invalid image format" [] 0 (DetectionStatistics.mk 2 0 7 0 0 0)))
        (PoolState.mk [] 0) false ∧
    detect_qr_from_binary (PipelineEnv.mk DecodeOutcome.emptyImage
        (DetectOutcome.ok [] []) true 2 0 0 7) (PoolState.mk [] 0) =
      WsPipeStep.mk (WsPipeOutcome.ok (DetectionResponse.mk false
        "Invalid image format" [] 0 (DetectionStatistics.mk 2 0 7 0 0 0)))
        (PoolState.mk [] 0) false ∧
    handle_websocket_request (WebSocketRequest.mk "detect" (some "payload"))
        (fun _ => Except.ok (PipelineEnv.mk DecodeOutcome.emptyImage
          (DetectOutcome.ok [] []) true 2 0 0 7)) (PoolState.mk [] 0) =
      (WsReqOutcome.resp (WebSocketResponse.mk "detection_result" false
          "Invalid image format" (some []) (some 0)
          (some (DetectionStatistics.mk 2 0 7 0 0 0)) none), PoolState.mk [] 0) := by
  have h := c5_empty_image_soft_result
    (PipelineEnv.mk DecodeOutcome.emptyImage (DetectOutcome.ok [] []) true 2 0 0 7)
    (PoolState.mk [] 0) rfl
  exact ⟨h.1 [], h.2.1, h.2.2.1, h.2.2.2 "payload" _ rfl⟩

/-- C6: an error from the black-box detector call is a hard failure on every
path — status 500 on both HTTP handlers, a string error on the WebSocket
helpers and an error envelope from the WebSocket request handler — and is
never encoded as a success-false structured result; the borrowed detector
instance is back in the pool on this error path. -/
theorem c6_detector_error_hard_failure (env : PipelineEnv) (pool : PoolState)
    (w h : ℤ) (msg : String) (rest : List (String × PipelineEnv))
    (hdec : env.decode = DecodeOutcome.decoded w h)
    (hdet : env.detectorResult = DetectOutcome.err msg)
    (hctor : env.constructorOk = true) :
    (detect_from_file (("image", env) :: rest) pool).outcome = HttpOutcome.status 500 ∧
    (detect_from_base64 (some (Except.ok env)) pool).outcome = HttpOutcome.status 500 ∧
    (∀ r, (detect_from_file (("image", env) :: rest) pool).outcome ≠ HttpOutcome.ok r) ∧
    (∀ r, (detect_from_base64 (some (Except.ok env)) pool).outcome ≠ HttpOutcome.ok r) ∧
    (detect_qr_from_base64 (Except.ok env) pool).outcome
      = WsPipeOutcome.err ("QRCode detection failed: " ++ msg) ∧
    (detect_qr_from_binary env pool).outcome
      = WsPipeOutcome.err ("QRCode detection failed: " ++ msg) ∧
    (∀ (img : String) (b64Of : String → Except String PipelineEnv),
      b64Of img = Except.ok env →
      (handle_websocket_request (WebSocketRequest.mk "detect" (some img)) b64Of pool).1
        = WsReqOutcome.resp (WebSocketResponse.mk "error" false "Detection failed"
            none none none (some ("QRCode detection failed: " ++ msg)))) ∧
    (∀ d s2, pool.pullWith env.constructorOk = PullResult.ok d s2 →
      d ∈ (detect_from_file (("image", env) :: rest) pool).pool.available ∧
      d ∈ (detect_qr_from_binary env pool).pool.available) := by
  obtain ⟨d0, s0, hpull⟩ := pullWith_true_exists pool
  have hpull' : pool.pullWith env.constructorOk = PullResult.ok d0 s0 := by
    rw [hctor]; exact hpull
  have hbody : detectPipelineHttp env pool =
      HttpStep.mk (HttpOutcome.status 500) (s0.release d0) true := by
    simp [detectPipelineHttp, hdec, hpull', hdet]
  have hfile : detect_from_file (("image", env) :: rest) pool =
      HttpStep.mk (HttpOutcome.status 500) (s0.release d0) true := by
    simp [detect_from_file, List.find?, hbody]
  have hb64 : detect_from_base64 (some (Except.ok env)) pool =
      HttpStep.mk (HttpOutcome.status 500) (s0.release d0) true := by
    simp [detect_from_base64, hbody]
  have hwsb : detect_qr_from_binary env pool =
      WsPipeStep.mk (WsPipeOutcome.err ("QRCode detection failed: " ++ msg))
        (s0.release d0) true := by
    simp [detect_qr_from_binary, hdec, hpull', hdet]
  have hws64 : detect_qr_from_base64 (Except.ok env) pool =
      WsPipeStep.mk (WsPipeOutcome.err ("QRCode detection failed: " ++ msg))
        (s0.release d0) true := by
    simp [detect_qr_from_base64, hdec, hpull', hdet]
  refine ⟨by rw [hfile], by rw [hb64], ?_, ?_, by rw [hws64], by rw [hwsb], ?_, ?_⟩
  · intro r
    rw [hfile]
    simp
  · intro r
    rw [hb64]
    simp
  · intro img b64Of hb
    simp [handle_websocket_request, hb, hws64]
  · intro d s2 hp2
    rw [hpull'] at hp2
    obtain ⟨rfl, rfl⟩ : d0 = d ∧ s0 = s2 := by
      cases hp2
      exact ⟨rfl, rfl⟩
    constructor
    · rw [hfile]
      simp [PoolState.release]
    · rw [hwsb]
      simp [PoolState.release]

theorem c6_detector_error_hard_failure_witness :
    (detect_from_file
        [("image", PipelineEnv.mk (DecodeOutcome.decoded 3 4)
          (DetectOutcome.err "boom") true 1 0 0 9)] (PoolState.mk [0] 1)).outcome
      = HttpOutcome.status 500 ∧
    (detect_qr_from_binary (PipelineEnv.mk (DecodeOutcome.decoded 3 4)
        (DetectOutcome.err "boom") true 1 0 0 9) (PoolState.mk [0] 1)).outcome
      = WsPipeOutcome.err ("QRCode detection failed: " ++ "boom") ∧
    (0 ∈ (detect_from_file
        [("image", PipelineEnv.mk (DecodeOutcome.decoded 3 4)
          (DetectOutcome.err "boom") true 1 0 0 9)] (PoolState.mk [0] 1)).pool.available) := by
  have h := c6_detector_error_hard_failure
    (PipelineEnv.mk (DecodeOutcome.decoded 3 4) (DetectOutcome.err "boom") true 1 0 0 9)
    (PoolState.mk [0] 1) 3 4 "boom" [] rfl rfl rfl
  exact ⟨h.1, h.2.2.2.2.2.1, (h.2.2.2.2.2.2.2 0 (PoolState.mk [] 1) rfl).1⟩

/-- C8: within one session, a text message of type close is answered with
exactly one close envelope and ends the message loop, so no later message is
processed; a text message of any other unrecognized type is answered with a
structured error envelope and the loop keeps running on the remaining
messages with the pool unchanged. -/
theorem c8_close_terminates_unknown_continues
    (b64Of : String → Except String PipelineEnv) (img : Option String)
    (rest : List WsIncoming) (pool : PoolState) :
    wsSessionLoop b64Of
        (WsIncoming.textParsed (WebSocketRequest.mk "close" img) :: rest) pool =
      ([WsFrame.text (WebSocketResponse.mk "close" true "Connection closing"
          none none none none)], 1) ∧
    (∀ t : String, t ≠ "detect" → t ≠ "close" →
      wsSessionLoop b64Of
          (WsIncoming.textParsed (WebSocketRequest.mk t img) :: rest) pool =
        (WsFrame.text (WebSocketResponse.mk "error" false
            ("Unknown message type: " ++ t) none none none
            (some "Unsupported message type"))
          :: (wsSessionLoop b64Of rest pool).1,
          (wsSessionLoop b64Of rest pool).2 + 1)) := by
  constructor
  · simp [wsSessionLoop, handle_websocket_request]
  · intro t ht1 ht2
    simp [wsSessionLoop, handle_websocket_request, ht1, ht2]

theorem c8_close_terminates_unknown_continues_witness :
    wsSessionLoop (fun _ => Except.error "e")
        [WsIncoming.textParsed (WebSocketRequest.mk "close" none),
         WsIncoming.ping] (PoolState.mk [] 0) =
      ([WsFrame.text (WebSocketResponse.mk "close" true "Connection closing"
          none none none none)], 1) ∧
    wsSessionLoop (fun _ => Except.error "e")
        [WsIncoming.textParsed (WebSocketRequest.mk "nonsense" none)]
        (PoolState.mk [] 0) =
      ([WsFrame.text (WebSocketResponse.mk "error" false
          "Unknown message type: nonsense" none none none
          (some "Unsupported message type"))], 1) := by
  have h1 := (c8_close_terminates_unknown_continues (fun _ => Except.error "e")
    none [WsIncoming.ping] (PoolState.mk [] 0)).1
  have h2 := (c8_close_terminates_unknown_continues (fun _ => Except.error "e")
    none [] (PoolState.mk [] 0)).2 "nonsense" (by decide) (by decide)
  refine ⟨h1, ?_⟩
  rw [h2]
  rfl

/-- C10: a text frame whose content serde rejects is answered with exactly
one error envelope — Invalid request format, carrying the parse error — and
the loop keeps running on the remaining messages with the pool unchanged. -/
theorem c10_invalid_json_keeps_connection
    (b64Of : String → Except String PipelineEnv) (e : String)
    (rest : List WsIncoming) (pool : PoolState) :
    wsSessionLoop b64Of (WsIncoming.textUnparsable e :: rest) pool =
      (WsFrame.text (WebSocketResponse.mk "error" false "Invalid request format"
          none none none (some ("Parse error: " ++ e)))
        :: (wsSessionLoop b64Of rest pool).1,
        (wsSessionLoop b64Of rest pool).2 + 1) := by
  simp [wsSessionLoop]
